import Mathlib

/-!
Shallow embedding of the Sentinel-Adversary trading-signal pipeline
(`src/config.py`, `src/logic.py`, `src/main.py`).

Python floats are modelled as rationals (`ℚ`); Python ints as `ℤ`/`ℕ`.
Python's `round(x, 2)` is modelled as rounding `x * 100` to the nearest
integer (the half-tie convention differs from Python's banker's rounding,
but no statement below sits on a half tie).  Wall-clock timestamps are
passed in as an opaque string parameter.  Logging, the Telegram alert and
order execution are side effects with no influence on the decision values
and are not modelled.
-/

namespace Sentinel

/-- The three legal values of `StrategyProposal.action`
(`Literal["LONG", "SHORT", "WAIT"]` in `logic.py`). -/
inductive Action
  | LONG
  | SHORT
  | WAIT
deriving DecidableEq

/-- The string form of an action, as it appears when the source
interpolates `proposal.action` into a message. -/
def Action.str : Action → String
  | Action.LONG => "LONG"
  | Action.SHORT => "SHORT"
  | Action.WAIT => "WAIT"

/-- The `technical` block of the market snapshot dict built by
`DataEngine.fetch_market_snapshot` (`engine.py` lines 79-85).  The
`ema_trend` field is kept as a string, as in the source, where it is
compared against the literals `"BULLISH"` and `"BEARISH"`. -/
structure Technical where
  rsi : ℚ
  atr : ℚ
  ema_trend : String
  close : ℚ
  prev_close : ℚ
deriving DecidableEq

/-- The market snapshot dict returned by `DataEngine.fetch_market_snapshot`
(`engine.py` lines 71-87). -/
structure MarketData where
  symbol : String
  price : ℚ
  bid : ℚ
  ask : ℚ
  spread_pct : ℚ
  funding_rate : ℚ
  vol_24h : ℚ
  technical : Technical
  orderbook_imbalance : String
deriving DecidableEq

/-- `StrategyProposal` (`logic.py` lines 14-21). -/
structure StrategyProposal where
  symbol : String
  action : Action
  entry_price : ℚ
  stop_loss : ℚ
  take_profit : ℚ
  reasoning : String
  confidence_score : ℤ
deriving DecidableEq

/-- `AuditReport` (`logic.py` lines 23-28). -/
structure AuditReport where
  approved : Bool
  risk_flags : List String
  liquidity_check : String
  revised_confidence : ℤ
  auditor_comment : String
deriving DecidableEq

/-- One entry of the `dialogue` list of a `TacticalPlan`
(a dict with `role` and `content` keys in the source). -/
structure DialogueEntry where
  role : String
  content : String
deriving DecidableEq

/-- `TacticalPlan` (`logic.py` lines 30-42). -/
structure TacticalPlan where
  timestamp : String := ""
  should_trade : Bool
  symbol : String
  action : Action
  entry : ℚ
  stop_loss : ℚ
  take_profit : ℚ
  expected_value : ℚ
  rationale : String
  proposal : Option StrategyProposal := none
  audit : Option AuditReport := none
  dialogue : List DialogueEntry := []
deriving DecidableEq

/-- `BotConfig` (`config.py`), with the source's default values. -/
structure BotConfig where
  OKX_API_KEY : String := ""
  OKX_SECRET_KEY : String := ""
  OKX_PASSPHRASE : String := ""
  IS_SANDBOX : Bool := false
  TRADING_SYMBOLS : List String := ["BTC/USDT:USDT", "ETH/USDT:USDT"]
  TIMEFRAME : String := "15m"
  LEVERAGE : ℤ := 5
  MAX_RISK_PER_TRADE_USD : ℚ := 50
  MIN_EXPECTED_VALUE : ℚ := 3/2
  GEMINI_API_KEY : String := ""
  DEEPSEEK_API_KEY : String := ""
  TELEGRAM_BOT_TOKEN : String := ""
  TELEGRAM_CHAT_ID : String := ""
  UPDATE_INTERVAL_SECONDS : ℕ := 300
  WEB_PASSWORD : String := "admin"
deriving DecidableEq

/-- `DebateManager` run-time state (`logic.py` lines 46-64): `client_a` /
`client_b` record whether the Gemini / DeepSeek clients were constructed
(present API key and, for Gemini, no constructor exception).  Neither
client is ever actually queried by the decision code, so a boolean
presence flag captures everything the decision functions read. -/
structure DebateManager where
  config : BotConfig
  client_a : Bool
  client_b : Bool
deriving DecidableEq

/-- Renders a rational with `d` digits after the decimal point, mirroring
Python format specifiers such as `:.1f` and `:.2f` (half ties differ as
noted in the module docstring; no claim depends on these strings). -/
def fmtQ (q : ℚ) (d : ℕ) : String :=
  let n : ℤ := round (q * (10 : ℚ) ^ d)
  let sign := if n < 0 then "-" else ""
  let m := n.natAbs
  let ip := m / 10 ^ d
  let fp := m % 10 ^ d
  let fpStr := toString fp
  let pad := String.mk (List.replicate (d - fpStr.length) '0')
  if d = 0 then sign ++ toString ip
  else sign ++ toString ip ++ "." ++ pad ++ fpStr

/-- `DebateManager._call_model_a` (`logic.py` lines 66-93).  When the
Gemini client is missing it returns the keyless WAIT proposal; otherwise
it runs the deterministic rule policy (the source never actually calls
the Gemini API). -/
def _call_model_a (m : DebateManager) (market_data : MarketData) : StrategyProposal :=
  if m.client_a = false then
    { symbol := market_data.symbol
      action := Action.WAIT
      entry_price := 0
      stop_loss := 0
      take_profit := 0
      reasoning := "策略师 API 密钥缺失"
      confidence_score := 0 }
  else
    let trend := market_data.technical.ema_trend
    let rsi := market_data.technical.rsi
    let trend_zh := if trend = "BULLISH" then "看涨" else "看跌"
    let action : Action :=
      if trend = "BULLISH" ∧ rsi < 70 then Action.LONG
      else if trend = "BEARISH" ∧ rsi > 30 then Action.SHORT
      else Action.WAIT
    let action_zh :=
      if action = Action.LONG then "做多"
      else if action = Action.SHORT then "做空" else "观望"
    { symbol := market_data.symbol
      action := action
      entry_price := market_data.price
      stop_loss := market_data.price * (if action = Action.LONG then 99/100 else 101/100)
      take_profit := market_data.price * (if action = Action.LONG then 103/100 else 97/100)
      reasoning := "识别到 " ++ trend_zh ++ " 结构，RSI 位于 " ++ fmtQ rsi 1
        ++ "。建议 " ++ action_zh ++ "。"
      confidence_score := if action ≠ Action.WAIT then 75 else 0 }

/-- `DebateManager._call_model_b` (`logic.py` lines 95-126).  A WAIT
proposal short-circuits; otherwise the same extreme-RSI rule runs whether
or not the DeepSeek client is present (the source never actually awaits
the DeepSeek API) — only the comment strings differ between the two
branches. -/
def _call_model_b (m : DebateManager) (proposal : StrategyProposal)
    (market_data : MarketData) : AuditReport :=
  if proposal.action = Action.WAIT then
    { approved := false
      risk_flags := []
      liquidity_check := "不适用"
      revised_confidence := 0
      auditor_comment := "策略师未提供可执行方案，保持观望。" }
  else if m.client_b = false then
    let is_extreme_rsi : Bool :=
      decide (market_data.technical.rsi > 80 ∨ market_data.technical.rsi < 20)
    let approved := !is_extreme_rsi
    { approved := approved
      risk_flags := if is_extreme_rsi then ["RSI_极值风险"] else []
      liquidity_check := "通过"
      revised_confidence := proposal.confidence_score - (if is_extreme_rsi then 10 else 0)
      auditor_comment :=
        if approved then "[规则引擎] 趋势对齐检查通过。"
        else "[规则引擎] 驳回：市场处于极端超买/超卖区。" }
  else
    let is_extreme_rsi : Bool :=
      decide (market_data.technical.rsi > 80 ∨ market_data.technical.rsi < 20)
    let approved := !is_extreme_rsi
    { approved := approved
      risk_flags := if is_extreme_rsi then ["RSI_极值风险"] else []
      liquidity_check := "通过"
      revised_confidence := proposal.confidence_score - (if is_extreme_rsi then 10 else 0)
      auditor_comment :=
        if approved then "审计员通过趋势对齐检查。"
        else "审计员驳回：市场处于极端超买/超卖衰竭区。" }

/-- The win-probability clamp of the adjudicator
(`logic.py` line 161): `min(max(revised_confidence / 100.0, 0.3), 0.7)`. -/
def p_win (audit : AuditReport) : ℚ :=
  min (max ((audit.revised_confidence : ℚ) / 100) (3/10)) (7/10)

/-- The expected value computed by the adjudicator before any rounding
(`logic.py` lines 161-166): reward and risk are absolute price distances,
`rr_ratio = reward / risk` guarded to `0` when `risk` is not positive, and
`ev = p_win * rr_ratio - (1 - p_win) * 1.0`. -/
def adjudEV (proposal : StrategyProposal) (audit : AuditReport) : ℚ :=
  let reward := |proposal.take_profit - proposal.entry_price|
  let risk := |proposal.entry_price - proposal.stop_loss|
  let rr_ratio := if risk > 0 then reward / risk else 0
  p_win audit * rr_ratio - (1 - p_win audit) * 1

/-- Python's `round(q, 2)` as used at `logic.py` line 188 (half ties
excepted, as noted in the module docstring). -/
def round2 (q : ℚ) : ℚ := (round (q * 100) : ℤ) / 100

/-- `DebateManager._adjudicate` (`logic.py` lines 128-193).  The
timestamp produced by `datetime.now()` is passed in as `ts`. -/
def _adjudicate (m : DebateManager) (ts : String) (proposal : StrategyProposal)
    (audit : AuditReport) : TacticalPlan :=
  let dialogue : List DialogueEntry :=
    if proposal.action ≠ Action.WAIT then
      { role := "strategist"
        content := "我观察到 " ++ proposal.symbol ++ " 当前处于 " ++ proposal.reasoning
          ++ "。这看起来是一个不错的机会。" } ::
      (if audit.approved then
        [{ role := "auditor"
           content := "我已审查该提议。" ++ audit.auditor_comment
             ++ " 深度图和流动性也符合要求，我同意尝试。" }]
      else
        [{ role := "auditor"
           content := "我持反对意见。" ++ audit.auditor_comment
             ++ " 现在的风险回报比并不理想。" }])
    else
      [{ role := "strategist", content := "目前市场波动较小或趋势不明朗，我建议继续观望。" },
       { role := "auditor", content := "同意。盲目入场只会增加不必要的风险。" }]
  if audit.approved = false ∨ proposal.action = Action.WAIT then
    { timestamp := ts
      should_trade := false
      symbol := proposal.symbol
      action := proposal.action
      entry := proposal.entry_price
      stop_loss := proposal.stop_loss
      take_profit := proposal.take_profit
      expected_value := 0
      rationale := audit.auditor_comment
      proposal := some proposal
      audit := some audit
      dialogue := dialogue }
  else
    let ev := adjudEV proposal audit
    let should_trade : Bool := decide (ev > m.config.MIN_EXPECTED_VALUE)
    let status_zh := if should_trade then "执行交易" else "拒绝交易 (低期望值)"
    let dialogue := dialogue ++
      (if should_trade then
        [{ role := "adjudicator"
           content := "基于双方陈述与数学计算，当前期望值 (EV) 为 " ++ fmtQ ev 2
             ++ "，超过阈值。指令已下达，执行 " ++ Action.str proposal.action ++ " 策略。" }]
      else
        [{ role := "adjudicator"
           content := "虽然审计通过，但数学期望值仅为 " ++ fmtQ ev 2
             ++ "，未达到系统要求的 " ++ fmtQ m.config.MIN_EXPECTED_VALUE 2
             ++ "。本次放弃执行。" }])
    { timestamp := ts
      should_trade := should_trade
      symbol := proposal.symbol
      action := proposal.action
      entry := proposal.entry_price
      stop_loss := proposal.stop_loss
      take_profit := proposal.take_profit
      expected_value := round2 ev
      rationale := "最终裁决: " ++ status_zh ++ "。期望值 (EV) 为 " ++ fmtQ ev 2 ++ "。"
      proposal := some proposal
      audit := some audit
      dialogue := dialogue }

/-- `DebateManager.generate_tactics` (`logic.py` lines 195-199):
propose, audit, adjudicate. -/
def generate_tactics (m : DebateManager) (ts : String) (market_data : MarketData) :
    TacticalPlan :=
  let proposal := _call_model_a m market_data
  let audit := _call_model_b m proposal market_data
  _adjudicate m ts proposal audit

/-- One symbol sweep of `strategy_loop` (`main.py` lines 63-97), as a pure
function of the fetch results: for each configured symbol in list order, a
`none` fetch result (the `if not data: continue` branch) skips that symbol
for the cycle, while a `some` result runs the debate and records the
resulting plan.  Logging, the Telegram alert and order execution (whose
failure is caught per symbol and does not influence the sweep) are side
effects and are not modelled; the returned list is the per-cycle record of
(symbol, plan) pairs in processing order, which the loop prepends one by
one onto the bounded `state.signals` history. -/
def sweepCycle (m : DebateManager) (ts : String) (fetch : String → Option MarketData) :
    List String → List (String × TacticalPlan)
  | [] => []
  | s :: rest =>
    match fetch s with
    | none => sweepCycle m ts fetch rest
    | some d => (s, generate_tactics m ts d) :: sweepCycle m ts fetch rest

/-- How one iteration of the `while state.running` body of `strategy_loop`
(`main.py` lines 56-109) ends. -/
inductive CycleOutcome
  | completed
  | cancelled
  | crashed
deriving DecidableEq

/-- The loop-boundary policy of `strategy_loop` (`main.py` lines 100-109):
given how the iteration body ended, either the loop sleeps for `some d`
seconds and runs another iteration, or it terminates (`none`).  A
completed sweep sleeps `UPDATE_INTERVAL_SECONDS`; `asyncio.CancelledError`
breaks out of the loop; any other exception is caught at the outer
boundary, logged, and the loop sleeps a literal 60 seconds before
resuming. -/
def strategy_loop_step (config : BotConfig) : CycleOutcome → Option ℕ
  | CycleOutcome.completed => some config.UPDATE_INTERVAL_SECONDS
  | CycleOutcome.cancelled => none
  | CycleOutcome.crashed => some 60

/-! Helper lemmas and shared concrete inputs. -/

/-- The `BotConfig` built from the source's default field values
(`MIN_EXPECTED_VALUE = 1.5`, `UPDATE_INTERVAL_SECONDS = 300`). -/
def defaultConfig : BotConfig := {}

/-- A manager in which both model clients were constructed. -/
def mgrDefault : DebateManager :=
  { config := defaultConfig, client_a := true, client_b := true }

/-- A manager in which neither API key was supplied, so both decision
stages run their keyless fallbacks. -/
def mgrKeyless : DebateManager :=
  { config := defaultConfig, client_a := false, client_b := false }

/-- A LONG proposal at the spec's reference levels
(entry 100, stop 99, take-profit 103, confidence 75). -/
def propLong : StrategyProposal :=
  { symbol := "BTC/USDT:USDT", action := Action.LONG, entry_price := 100,
    stop_loss := 99, take_profit := 103, reasoning := "r", confidence_score := 75 }

/-- An approving audit that leaves the reference confidence at 75. -/
def auditPass : AuditReport :=
  { approved := true, risk_flags := [], liquidity_check := "通过",
    revised_confidence := 75, auditor_comment := "c" }

/-- A LONG proposal whose risk-reward gives an expected value of exactly
1.501 when the win probability is 0.5 (take-profit 104.002). -/
def propRound : StrategyProposal :=
  { symbol := "BTC/USDT:USDT", action := Action.LONG, entry_price := 100,
    stop_loss := 99, take_profit := 52001/500, reasoning := "r", confidence_score := 75 }

/-- An approving audit with revised confidence 50 (win probability 0.5). -/
def auditHalf : AuditReport :=
  { approved := true, risk_flags := [], liquidity_check := "通过",
    revised_confidence := 50, auditor_comment := "c" }

/-- An approved LONG whose entry price coincides with its stop-loss. -/
def propZeroRisk : StrategyProposal :=
  { symbol := "BTC/USDT:USDT", action := Action.LONG, entry_price := 100,
    stop_loss := 100, take_profit := 103, reasoning := "r", confidence_score := 75 }

/-- A snapshot in a bullish EMA structure with an RSI of 85 (above both
the 70 no-LONG cutoff and the 80 extreme-risk cutoff), last price 100. -/
def mdBullHot : MarketData :=
  { symbol := "BTC/USDT:USDT", price := 100, bid := 999/10, ask := 1001/10,
    spread_pct := 1/500, funding_rate := 0, vol_24h := 1000000,
    technical := { rsi := 85, atr := 5/2, ema_trend := "BULLISH",
                   close := 100, prev_close := 99 },
    orderbook_imbalance := "NEUTRAL" }

/-- A snapshot in a bullish EMA structure with a moderate RSI of 50,
last price 100. -/
def mdBull : MarketData :=
  { symbol := "BTC/USDT:USDT", price := 100, bid := 999/10, ask := 1001/10,
    spread_pct := 1/500, funding_rate := 0, vol_24h := 1000000,
    technical := { rsi := 50, atr := 5/2, ema_trend := "BULLISH",
                   close := 100, prev_close := 99 },
    orderbook_imbalance := "NEUTRAL" }

/-- The WAIT proposal with no tradable levels. -/
def propWait : StrategyProposal :=
  { symbol := "BTC/USDT:USDT", action := Action.WAIT, entry_price := 0,
    stop_loss := 0, take_profit := 0, reasoning := "r", confidence_score := 0 }

/-- A fetch map for a concrete 3-symbol sweep: the middle symbol's fetch
fails, the outer two succeed. -/
def fetch3 : String → Option MarketData := fun s =>
  if s = "BTC/USDT:USDT" then some mdBull
  else if s = "SOL/USDT:USDT" then some mdBullHot
  else none

/-- Evaluation rule for `round2` away from half ties. -/
lemma round2_eq_of (q : ℚ) (n : ℤ) (h1 : (n : ℚ) ≤ q * 100 + 1/2)
    (h2 : q * 100 + 1/2 < n + 1) : round2 q = (n : ℚ) / 100 := by
  unfold round2
  rw [round_eq, Int.floor_eq_iff.mpr ⟨h1, h2⟩]

/-- On an approved non-WAIT pair, `_adjudicate` gates `should_trade` on
the unrounded `adjudEV` and stores the rounded value. -/
lemma adjudicate_approved (m : DebateManager) (ts : String) (p : StrategyProposal)
    (a : AuditReport) (hA : a.approved = true) (hW : p.action ≠ Action.WAIT) :
    (_adjudicate m ts p a).should_trade
        = decide (adjudEV p a > m.config.MIN_EXPECTED_VALUE) ∧
      (_adjudicate m ts p a).expected_value = round2 (adjudEV p a) ∧
      (_adjudicate m ts p a).action = p.action := by
  unfold _adjudicate
  simp [hA, hW]

/-- On a rejected or WAIT pair, `_adjudicate` returns the no-trade plan
with `expected_value = 0`. -/
lemma adjudicate_rejected (m : DebateManager) (ts : String) (p : StrategyProposal)
    (a : AuditReport) (h : a.approved = false ∨ p.action = Action.WAIT) :
    (_adjudicate m ts p a).should_trade = false ∧
      (_adjudicate m ts p a).expected_value = 0 ∧
      (_adjudicate m ts p a).action = p.action := by
  unfold _adjudicate
  rcases h with h | h <;> simp [h]

/-! Claim theorems. -/

/-- C1 (amended): `should_trade = true` exactly when the action is not
WAIT, the audit approved, and the expected value *as computed during
adjudication* (`adjudEV`, before the 2-decimal rounding applied when it is
stored in the plan) strictly exceeds `MIN_EXPECTED_VALUE`. -/
theorem C1_gate_amended (m : DebateManager) (ts : String) (p : StrategyProposal)
    (a : AuditReport) :
    (_adjudicate m ts p a).should_trade = true ↔
      (p.action ≠ Action.WAIT ∧ a.approved = true ∧
        adjudEV p a > m.config.MIN_EXPECTED_VALUE) := by
  by_cases hW : p.action = Action.WAIT
  · rw [(adjudicate_rejected m ts p a (Or.inr hW)).1]
    simp [hW]
  · cases hA : a.approved with
    | false =>
      rw [(adjudicate_rejected m ts p a (Or.inl hA)).1]
      simp [hA]
    | true =>
      rw [(adjudicate_approved m ts p a hA hW).1]
      simp [hW, hA, decide_eq_true_eq]

/-- C1 (witness for the amended gate, at a trading input): the reference
scenario trades and its unrounded expected value exceeds the threshold. -/
theorem C1_gate_witness :
    (_adjudicate mgrDefault "" propLong auditPass).should_trade = true := by
  rw [C1_gate_amended]
  refine ⟨by decide, rfl, ?_⟩
  unfold adjudEV p_win propLong auditPass mgrDefault defaultConfig
  norm_num [min_def, max_def]

/-- C1 (counterexample to the claim as stated over the plan's stored
`expected_value` field): with entry 100, stop 99, take-profit 104.002 and
revised confidence 50, the computed expected value is 1.501, so the plan
trades, but the stored `expected_value` is the rounded 1.50, which does
not strictly exceed the threshold 1.5. -/
theorem C1_counterexample :
    (_adjudicate mgrDefault "" propRound auditHalf).should_trade = true ∧
      ¬ ((_adjudicate mgrDefault "" propRound auditHalf).expected_value >
          mgrDefault.config.MIN_EXPECTED_VALUE) := by
  have hEV : adjudEV propRound auditHalf = 1501/1000 := by
    unfold adjudEV p_win propRound auditHalf
    rw [show |(52001/500 : ℚ) - 100| = 2001/500 by norm_num,
      show |(100 : ℚ) - 99| = 1 by norm_num]
    norm_num [min_def, max_def]
  have h := adjudicate_approved mgrDefault "" propRound auditHalf rfl (by decide)
  constructor
  · rw [h.1, hEV]
    apply decide_eq_true
    show (1501/1000 : ℚ) > mgrDefault.config.MIN_EXPECTED_VALUE
    unfold mgrDefault defaultConfig
    norm_num
  · rw [h.2.1, hEV, round2_eq_of (1501/1000) 150 (by norm_num) (by norm_num)]
    unfold mgrDefault defaultConfig
    norm_num

/-- C2: on an approved non-WAIT proposal with positive risk, adjudication
computes the expected value as `p_win * (reward / risk) - (1 - p_win)`
with `p_win = revised_confidence / 100` clamped to `[0.3, 0.7]`; that
unrounded value is compared strictly against `MIN_EXPECTED_VALUE` and its
2-decimal rounding is stored in the plan.  The witness below instantiates
the reference scenario (entry 100, stop 99, take-profit 103, revised
confidence 75), whose expected value is exactly 1.8. -/
theorem C2_ev_formula (m : DebateManager) (ts : String) (p : StrategyProposal)
    (a : AuditReport) (hA : a.approved = true) (hW : p.action ≠ Action.WAIT)
    (hR : 0 < |p.entry_price - p.stop_loss|) :
    (_adjudicate m ts p a).expected_value =
      round2 (min (max ((a.revised_confidence : ℚ) / 100) (3/10)) (7/10) *
          (|p.take_profit - p.entry_price| / |p.entry_price - p.stop_loss|) -
        (1 - min (max ((a.revised_confidence : ℚ) / 100) (3/10)) (7/10)) * 1) ∧
    ((_adjudicate m ts p a).should_trade = true ↔
      min (max ((a.revised_confidence : ℚ) / 100) (3/10)) (7/10) *
          (|p.take_profit - p.entry_price| / |p.entry_price - p.stop_loss|) -
        (1 - min (max ((a.revised_confidence : ℚ) / 100) (3/10)) (7/10)) * 1 >
        m.config.MIN_EXPECTED_VALUE) := by
  have hEV : adjudEV p a =
      min (max ((a.revised_confidence : ℚ) / 100) (3/10)) (7/10) *
          (|p.take_profit - p.entry_price| / |p.entry_price - p.stop_loss|) -
        (1 - min (max ((a.revised_confidence : ℚ) / 100) (3/10)) (7/10)) * 1 := by
    simp only [adjudEV, p_win]
    rw [if_pos hR]
  have h := adjudicate_approved m ts p a hA hW
  refine ⟨by rw [h.2.1, hEV], ?_⟩
  rw [h.1, hEV]
  simp [decide_eq_true_eq]

/-- C2 (witness): the reference scenario trades with stored expected
value exactly 1.8 against the default threshold 1.5. -/
theorem C2_witness :
    auditPass.approved = true ∧ propLong.action ≠ Action.WAIT ∧
      0 < |propLong.entry_price - propLong.stop_loss| ∧
      (_adjudicate mgrDefault "" propLong auditPass).expected_value = 9/5 ∧
      (_adjudicate mgrDefault "" propLong auditPass).should_trade = true := by
  have h := C2_ev_formula mgrDefault "" propLong auditPass rfl (by decide)
    (by norm_num [propLong])
  refine ⟨rfl, by decide, by norm_num [propLong], ?_, ?_⟩
  · rw [h.1]
    have harg : min (max ((auditPass.revised_confidence : ℚ) / 100) (3/10)) (7/10) *
          (|propLong.take_profit - propLong.entry_price| /
            |propLong.entry_price - propLong.stop_loss|) -
        (1 - min (max ((auditPass.revised_confidence : ℚ) / 100) (3/10)) (7/10)) * 1
        = 9/5 := by
      norm_num [propLong, auditPass, min_def, max_def]
    rw [harg, round2_eq_of (9/5) 180 (by norm_num) (by norm_num)]
    norm_num
  · rw [h.2]
    norm_num [propLong, auditPass, mgrDefault, defaultConfig, min_def, max_def]

/-- C3: when the entry price equals the stop-loss (zero risk), the
guarded ratio avoids the division and, for any non-negative configured
threshold (the shipped default is 1.5), the plan never trades: the
expected value degenerates to `-(1 - p_win) ≤ -0.3`. -/
theorem C3_zero_risk (m : DebateManager) (ts : String) (p : StrategyProposal)
    (a : AuditReport) (hA : a.approved = true) (hW : p.action ≠ Action.WAIT)
    (hEq : p.entry_price = p.stop_loss) (hMin : 0 ≤ m.config.MIN_EXPECTED_VALUE) :
    (_adjudicate m ts p a).should_trade = false := by
  have hEV : adjudEV p a = -(1 - p_win a) := by
    simp only [adjudEV]
    simp [hEq]
  rw [(adjudicate_approved m ts p a hA hW).1, hEV]
  apply decide_eq_false
  intro hgt
  have hp : p_win a ≤ 7/10 := by
    unfold p_win
    exact min_le_right _ _
  linarith

/-- C3 (witness): a zero-risk approved LONG at the default threshold does
not trade. -/
theorem C3_witness :
    auditPass.approved = true ∧ propZeroRisk.action ≠ Action.WAIT ∧
      propZeroRisk.entry_price = propZeroRisk.stop_loss ∧
      0 ≤ mgrDefault.config.MIN_EXPECTED_VALUE ∧
      (_adjudicate mgrDefault "" propZeroRisk auditPass).should_trade = false := by
  refine ⟨rfl, by decide, rfl, by norm_num [mgrDefault, defaultConfig], ?_⟩
  exact C3_zero_risk mgrDefault "" propZeroRisk auditPass rfl (by decide) rfl
    (by norm_num [mgrDefault, defaultConfig])

/-- C4 (amended): every WAIT proposal carries `confidence_score = 0`, but
only the keyless branch zeroes the price levels; a WAIT decided by the
rule-based branch copies the snapshot's price into `entry_price` and sets
`stop_loss = price * 1.01`, `take_profit = price * 0.97` (the SHORT-side
multipliers, since the action is not LONG). -/
theorem C4_wait_levels_amended (m : DebateManager) (md : MarketData)
    (h : (_call_model_a m md).action = Action.WAIT) :
    (_call_model_a m md).confidence_score = 0 ∧
      ((m.client_a = false ∧ (_call_model_a m md).entry_price = 0 ∧
          (_call_model_a m md).stop_loss = 0 ∧ (_call_model_a m md).take_profit = 0) ∨
        (m.client_a = true ∧ (_call_model_a m md).entry_price = md.price ∧
          (_call_model_a m md).stop_loss = md.price * (101/100) ∧
          (_call_model_a m md).take_profit = md.price * (97/100))) := by
  cases hc : m.client_a with
  | false =>
    refine ⟨?_, Or.inl ⟨rfl, ?_, ?_, ?_⟩⟩ <;> simp [_call_model_a, hc]
  | true =>
    by_cases h1 : md.technical.ema_trend = "BULLISH" ∧ md.technical.rsi < 70
    · exfalso
      simp [_call_model_a, hc, h1] at h
    · by_cases h2 : md.technical.ema_trend = "BEARISH" ∧ md.technical.rsi > 30
      · exfalso
        simp [_call_model_a, hc, h1, h2] at h
      · refine ⟨?_, Or.inr ⟨rfl, ?_, ?_, ?_⟩⟩ <;> simp [_call_model_a, hc, h1, h2]

/-- C4 (witness): a keyless WAIT proposal has confidence 0 and zero
levels. -/
theorem C4_wait_levels_witness :
    (_call_model_a mgrKeyless mdBullHot).action = Action.WAIT ∧
      (_call_model_a mgrKeyless mdBullHot).confidence_score = 0 ∧
      ((mgrKeyless.client_a = false ∧ (_call_model_a mgrKeyless mdBullHot).entry_price = 0 ∧
          (_call_model_a mgrKeyless mdBullHot).stop_loss = 0 ∧
          (_call_model_a mgrKeyless mdBullHot).take_profit = 0) ∨
        (mgrKeyless.client_a = true ∧
          (_call_model_a mgrKeyless mdBullHot).entry_price = mdBullHot.price ∧
          (_call_model_a mgrKeyless mdBullHot).stop_loss = mdBullHot.price * (101/100) ∧
          (_call_model_a mgrKeyless mdBullHot).take_profit = mdBullHot.price * (97/100))) := by
  have h : (_call_model_a mgrKeyless mdBullHot).action = Action.WAIT := rfl
  exact ⟨h, C4_wait_levels_amended mgrKeyless mdBullHot h⟩

/-- C4 (counterexample to the claim as stated): with the Gemini client
present, a bullish snapshot at price 100 with RSI 85 yields a WAIT
proposal whose `entry_price` is 100, not 0. -/
theorem C4_counterexample :
    (_call_model_a mgrDefault mdBullHot).action = Action.WAIT ∧
      (_call_model_a mgrDefault mdBullHot).entry_price = 100 ∧
      (_call_model_a mgrDefault mdBullHot).entry_price ≠ 0 := by
  refine ⟨?_, ?_, ?_⟩ <;> norm_num [_call_model_a, mgrDefault, mdBullHot]
  simp

/-- C5: with the rule-based proposer active and a positive price, a
bullish trend with RSI below 70 yields a LONG with
`stop_loss = price * 0.99 < entry = price < take_profit = price * 1.03`
and confidence 75; a bearish trend with RSI above 30 yields a SHORT with
`take_profit = price * 0.97 < entry = price < stop_loss = price * 1.01`
and confidence 75; every other snapshot yields WAIT. -/
theorem C5_rule_policy (m : DebateManager) (md : MarketData)
    (hc : m.client_a = true) (hp : 0 < md.price) :
    (md.technical.ema_trend = "BULLISH" ∧ md.technical.rsi < 70 →
      (_call_model_a m md).action = Action.LONG ∧
      (_call_model_a m md).entry_price = md.price ∧
      (_call_model_a m md).stop_loss = md.price * (99/100) ∧
      (_call_model_a m md).take_profit = md.price * (103/100) ∧
      (_call_model_a m md).stop_loss < (_call_model_a m md).entry_price ∧
      (_call_model_a m md).entry_price < (_call_model_a m md).take_profit ∧
      (_call_model_a m md).confidence_score = 75) ∧
    (md.technical.ema_trend = "BEARISH" ∧ md.technical.rsi > 30 →
      (_call_model_a m md).action = Action.SHORT ∧
      (_call_model_a m md).entry_price = md.price ∧
      (_call_model_a m md).stop_loss = md.price * (101/100) ∧
      (_call_model_a m md).take_profit = md.price * (97/100) ∧
      (_call_model_a m md).take_profit < (_call_model_a m md).entry_price ∧
      (_call_model_a m md).entry_price < (_call_model_a m md).stop_loss ∧
      (_call_model_a m md).confidence_score = 75) ∧
    (¬(md.technical.ema_trend = "BULLISH" ∧ md.technical.rsi < 70) ∧
      ¬(md.technical.ema_trend = "BEARISH" ∧ md.technical.rsi > 30) →
      (_call_model_a m md).action = Action.WAIT) := by
  refine ⟨?_, ?_, ?_⟩
  · intro hx
    have hL : (_call_model_a m md).action = Action.LONG ∧
        (_call_model_a m md).entry_price = md.price ∧
        (_call_model_a m md).stop_loss = md.price * (99/100) ∧
        (_call_model_a m md).take_profit = md.price * (103/100) ∧
        (_call_model_a m md).confidence_score = 75 := by
      simp [_call_model_a, hc, hx.1, hx.2]
    refine ⟨hL.1, hL.2.1, hL.2.2.1, hL.2.2.2.1, ?_, ?_, hL.2.2.2.2⟩
    · rw [hL.2.2.1, hL.2.1]
      linarith
    · rw [hL.2.1, hL.2.2.2.1]
      linarith
  · intro hx
    have hne : ¬ (md.technical.ema_trend = "BULLISH" ∧ md.technical.rsi < 70) := by
      intro hco
      rw [hx.1] at hco
      simp at hco
    have hS : (_call_model_a m md).action = Action.SHORT ∧
        (_call_model_a m md).entry_price = md.price ∧
        (_call_model_a m md).stop_loss = md.price * (101/100) ∧
        (_call_model_a m md).take_profit = md.price * (97/100) ∧
        (_call_model_a m md).confidence_score = 75 := by
      simp [_call_model_a, hc, hne, hx.1, hx.2]
    refine ⟨hS.1, hS.2.1, hS.2.2.1, hS.2.2.2.1, ?_, ?_, hS.2.2.2.2⟩
    · rw [hS.2.1, hS.2.2.2.1]
      linarith
    · rw [hS.2.1, hS.2.2.1]
      linarith
  · intro hx
    simp [_call_model_a, hc, hx.1, hx.2]

/-- C5 (witness): a bullish snapshot with RSI 50 at price 100 gets a LONG
with stop 99 < entry 100 < take-profit 103. -/
theorem C5_rule_policy_witness :
    mgrDefault.client_a = true ∧ 0 < mdBull.price ∧
      (mdBull.technical.ema_trend = "BULLISH" ∧ mdBull.technical.rsi < 70) ∧
      (_call_model_a mgrDefault mdBull).action = Action.LONG ∧
      (_call_model_a mgrDefault mdBull).stop_loss < (_call_model_a mgrDefault mdBull).entry_price ∧
      (_call_model_a mgrDefault mdBull).entry_price < (_call_model_a mgrDefault mdBull).take_profit := by
  have h := C5_rule_policy mgrDefault mdBull rfl (by norm_num [mdBull])
  have hx : mdBull.technical.ema_trend = "BULLISH" ∧ mdBull.technical.rsi < 70 := by
    constructor
    · rfl
    · norm_num [mdBull]
  have h1 := h.1 hx
  exact ⟨rfl, by norm_num [mdBull], hx, h1.1, h1.2.2.2.2.1, h1.2.2.2.2.2.1⟩

/-- C6: with the DeepSeek client absent and a non-WAIT proposal, an RSI
above 80 or below 20 yields rejection with the non-empty flag list
`["RSI_极值风险"]` and a 10-point confidence deduction; otherwise the
audit approves with an empty flag list and passes the confidence through
unchanged. -/
theorem C6_rule_audit (m : DebateManager) (p : StrategyProposal) (md : MarketData)
    (hb : m.client_b = false) (hW : p.action ≠ Action.WAIT) :
    (md.technical.rsi > 80 ∨ md.technical.rsi < 20 →
      (_call_model_b m p md).approved = false ∧
      (_call_model_b m p md).risk_flags = ["RSI_极值风险"] ∧
      (_call_model_b m p md).risk_flags ≠ [] ∧
      (_call_model_b m p md).revised_confidence = p.confidence_score - 10) ∧
    (¬(md.technical.rsi > 80 ∨ md.technical.rsi < 20) →
      (_call_model_b m p md).approved = true ∧
      (_call_model_b m p md).risk_flags = [] ∧
      (_call_model_b m p md).revised_confidence = p.confidence_score) := by
  constructor
  · intro hx
    simp [_call_model_b, hb, hW, hx]
  · intro hx
    simp [_call_model_b, hb, hW, hx]

/-- C6 (witness): at RSI 85 the keyless audit rejects a LONG proposal,
flags it, and cuts the confidence from 75 to 65. -/
theorem C6_rule_audit_witness :
    mgrKeyless.client_b = false ∧ propLong.action ≠ Action.WAIT ∧
      (mdBullHot.technical.rsi > 80 ∨ mdBullHot.technical.rsi < 20) ∧
      (_call_model_b mgrKeyless propLong mdBullHot).approved = false ∧
      (_call_model_b mgrKeyless propLong mdBullHot).risk_flags ≠ [] ∧
      (_call_model_b mgrKeyless propLong mdBullHot).revised_confidence =
        propLong.confidence_score - 10 := by
  have hx : mdBullHot.technical.rsi > 80 ∨ mdBullHot.technical.rsi < 20 :=
    Or.inl (by norm_num [mdBullHot])
  have h := (C6_rule_audit mgrKeyless propLong mdBullHot rfl (by decide)).1 hx
  exact ⟨rfl, by decide, hx, h.1, h.2.2.1, h.2.2.2⟩

/-- C7: a WAIT proposal short-circuits the audit to an unapproved report
with an empty risk-flag list (and revised confidence 0), for every
manager state and snapshot. -/
theorem C7_wait_audit (m : DebateManager) (p : StrategyProposal) (md : MarketData)
    (h : p.action = Action.WAIT) :
    (_call_model_b m p md).approved = false ∧
      (_call_model_b m p md).risk_flags = [] ∧
      (_call_model_b m p md).revised_confidence = 0 := by
  simp [_call_model_b, h]

/-- C7 (witness): the canonical WAIT proposal is unapproved with no
flags, even on an extreme-RSI snapshot. -/
theorem C7_wait_audit_witness :
    propWait.action = Action.WAIT ∧
      (_call_model_b mgrDefault propWait mdBullHot).approved = false ∧
      (_call_model_b mgrDefault propWait mdBullHot).risk_flags = [] := by
  have h := C7_wait_audit mgrDefault propWait mdBullHot rfl
  exact ⟨rfl, h.1, h.2.1⟩

/-- C8: within one sweep, exactly the symbols whose fetch returns a
snapshot are analyzed and recorded, in list order — a `none` fetch skips
only its own symbol.  In particular, in a 3-symbol sweep whose middle
fetch fails, the first and third symbols are both still processed and
their plans recorded in the same cycle. -/
theorem C8_sweep_skip (m : DebateManager) (ts : String)
    (fetch : String → Option MarketData) :
    (∀ syms : List String,
      sweepCycle m ts fetch syms =
        syms.filterMap (fun s => (fetch s).map (fun d => (s, generate_tactics m ts d)))) ∧
    (∀ (s1 s2 s3 : String) (d1 d3 : MarketData),
      fetch s1 = some d1 → fetch s2 = none → fetch s3 = some d3 →
      sweepCycle m ts fetch [s1, s2, s3] =
        [(s1, generate_tactics m ts d1), (s3, generate_tactics m ts d3)]) := by
  have hmain : ∀ syms : List String,
      sweepCycle m ts fetch syms =
        syms.filterMap (fun s => (fetch s).map (fun d => (s, generate_tactics m ts d))) := by
    intro syms
    induction syms with
    | nil => rfl
    | cons s rest ih =>
      rw [List.filterMap_cons]
      cases hs : fetch s with
      | none =>
        simp only [sweepCycle, hs, Option.map_none']
        exact ih
      | some d =>
        simp only [sweepCycle, hs, Option.map_some']
        rw [ih]
  refine ⟨hmain, ?_⟩
  intro s1 s2 s3 d1 d3 h1 h2 h3
  rw [hmain [s1, s2, s3]]
  simp [h1, h2, h3]

/-- C8 (witness): a concrete 3-symbol sweep whose middle fetch fails
still records the plans of the first and third symbols. -/
theorem C8_sweep_skip_witness :
    fetch3 "BTC/USDT:USDT" = some mdBull ∧ fetch3 "ETH/USDT:USDT" = none ∧
      fetch3 "SOL/USDT:USDT" = some mdBullHot ∧
      sweepCycle mgrDefault "" fetch3 ["BTC/USDT:USDT", "ETH/USDT:USDT", "SOL/USDT:USDT"] =
        [("BTC/USDT:USDT", generate_tactics mgrDefault "" mdBull),
         ("SOL/USDT:USDT", generate_tactics mgrDefault "" mdBullHot)] := by
  refine ⟨rfl, rfl, rfl, ?_⟩
  exact (C8_sweep_skip mgrDefault "" fetch3).2 "BTC/USDT:USDT" "ETH/USDT:USDT"
    "SOL/USDT:USDT" mdBull mdBullHot rfl rfl rfl

/-- C9 (amended): any exception escaping the per-symbol handling is
caught at the loop's outer boundary and the loop pauses for a fixed
60-second cooldown and then resumes; only cancellation terminates the
loop.  The cooldown is, however, *shorter* than the normal inter-cycle
delay under the shipped default configuration, whose
`UPDATE_INTERVAL_SECONDS` is 300. -/
theorem C9_crash_cooldown_amended :
    (∀ config : BotConfig,
      strategy_loop_step config CycleOutcome.crashed = some 60 ∧
      strategy_loop_step config CycleOutcome.cancelled = none ∧
      strategy_loop_step config CycleOutcome.completed =
        some config.UPDATE_INTERVAL_SECONDS) ∧
    60 < defaultConfig.UPDATE_INTERVAL_SECONDS := by
  refine ⟨fun config => ⟨rfl, rfl, rfl⟩, ?_⟩
  norm_num [defaultConfig]

/-- C9 (counterexample to the claim as stated): the crash cooldown is the
fixed 60 seconds, but under the default configuration the normal
inter-cycle delay is 300 seconds, so the cooldown is NOT longer than the
inter-cycle delay. -/
theorem C9_counterexample :
    strategy_loop_step defaultConfig CycleOutcome.crashed = some 60 ∧
      defaultConfig.UPDATE_INTERVAL_SECONDS = 300 ∧
      ¬ (60 > defaultConfig.UPDATE_INTERVAL_SECONDS) := by
  refine ⟨rfl, rfl, ?_⟩
  norm_num [defaultConfig]

/-- C10: for a non-WAIT proposal the audit verdict fields — `approved`,
the number of risk flags, and `revised_confidence` — do not depend on
whether the DeepSeek client is configured: the client-present path and
the keyless fallback agree on all three (only the comment strings
differ). -/
theorem C10_audit_client_independent (m₁ m₂ : DebateManager)
    (p : StrategyProposal) (md : MarketData) (hW : p.action ≠ Action.WAIT)
    (h1 : m₁.client_b = true) (h2 : m₂.client_b = false) :
    (_call_model_b m₁ p md).approved = (_call_model_b m₂ p md).approved ∧
      (_call_model_b m₁ p md).risk_flags.length =
        (_call_model_b m₂ p md).risk_flags.length ∧
      (_call_model_b m₁ p md).revised_confidence =
        (_call_model_b m₂ p md).revised_confidence := by
  by_cases hx : md.technical.rsi > 80 ∨ md.technical.rsi < 20 <;>
    simp [_call_model_b, hW, h1, h2, hx]

/-- C10 (witness): on an extreme-RSI snapshot, the client-present audit
and the keyless audit agree on verdict, flag count and revised
confidence. -/
theorem C10_audit_client_independent_witness :
    propLong.action ≠ Action.WAIT ∧ mgrDefault.client_b = true ∧
      mgrKeyless.client_b = false ∧
      (_call_model_b mgrDefault propLong mdBullHot).approved =
        (_call_model_b mgrKeyless propLong mdBullHot).approved ∧
      (_call_model_b mgrDefault propLong mdBullHot).risk_flags.length =
        (_call_model_b mgrKeyless propLong mdBullHot).risk_flags.length ∧
      (_call_model_b mgrDefault propLong mdBullHot).revised_confidence =
        (_call_model_b mgrKeyless propLong mdBullHot).revised_confidence := by
  have h := C10_audit_client_independent mgrDefault mgrKeyless propLong mdBullHot
    (by decide) rfl rfl
  exact ⟨by decide, rfl, rfl, h.1, h.2.1, h.2.2⟩

end Sentinel
